import Mathlib

/-!
Verification development for the PolarCloud device-side cloud agent
(`octoprint_polarcloud/__init__.py`).

The Python module is shallowly embedded: the plugin object's mutable
attributes become the `PState` record, each method becomes a pure function
from `PState` (and the inbound message) to a new `PState` together with the
list of externally visible effects it performs (socket emissions, printer
invocations, HTTP requests); code that can raise a Python exception returns
`Except PyErr`.  JSON-ish message payloads are association lists of
`String × Val` where `Val` covers the Python values the module manipulates
(strings, integer numbers, `None`, nested dicts).  Wall-clock time
(`datetime.datetime.now()`) is an integer field `now` of the state; the
out-of-scope collaborators (key signer, MAC/IP discovery, HTTP transport)
are modelled as total abstract functions, matching the spec's scoping of
them as external interfaces.
-/

namespace PolarCloud

/-- A Python value as used by this module: strings, (integer) numbers,
`None`, and nested dicts.  Floating point is not modelled; every numeric
value the claims touch is integral. -/
inductive Val where
  | s (x : String)
  | n (k : Int)
  | null
  | d (entries : List (String × Val))

/-- A Python dict with string keys, as an association list. -/
abbrev Dict := List (String × Val)

/-- `d.get(k)` returning `none` for a missing key. -/
def dictGet : Dict → String → Option Val
  | [], _ => none
  | (k', v) :: rest, k => if k' == k then some v else dictGet rest k

/-- `d.get(k, dflt)`. -/
def dictGetD (d : Dict) (k : String) (dflt : Val) : Val :=
  (dictGet d k).getD dflt

/-- `d[k] = v`: replace in place, append if absent. -/
def dictSet : Dict → String → Val → Dict
  | [], k, v => [(k, v)]
  | (k', v') :: rest, k, v =>
    if k' == k then (k, v) :: rest else (k', v') :: dictSet rest k v

/-- Source `has_all(dictionary, *keys)`: true iff every key is present. -/
def has_all (d : Dict) (keys : List String) : Bool :=
  keys.all (fun k => (dictGet d k).isSome)

/-- Python `s == v` where `s` is a `str` and `v` an arbitrary value:
true only when `v` is an equal string (comparing a string with a value of
another type is `False` in Python, not an error). -/
def strEqVal (s : String) : Val → Bool
  | .s t => s == t
  | _ => false

/-- Python truthiness of a `Val`. -/
def truthyVal : Val → Bool
  | .s x => !(x == "")
  | .n k => !(k == 0)
  | .null => false
  | .d entries => !entries.isEmpty

/-- Python truthiness of an attribute that is `None` or a string
(e.g. `self._serial`, `self._snapshot_url`). -/
def truthyStr : Option String → Bool
  | none => false
  | some s => !(s == "")

/-- Python truthiness of an attribute that is `None` or a stored value
(e.g. `self._challenge`). -/
def truthyOptVal : Option Val → Bool
  | none => false
  | some v => truthyVal v

/-- Python hashed-key equality for the values this module ever uses as a
dict key (dicts themselves are unhashable, see `on_get_url_response`). -/
def hashableKeyBeq : Val → Val → Bool
  | .s a, .s b => a == b
  | .n a, .n b => a == b
  | .null, .null => true
  | _, _ => false

/-- The Python exceptions the embedded code can raise. -/
inductive PyErr where
  | keyError
  | typeError
  | valueError
  | nameError
  | attributeError

/-- Python `str(v)`; the rendering of nested dicts is abstracted (never
compared by the module). -/
def pyStr : Val → String
  | .s x => x
  | .n k => toString k
  | .null => "None"
  | .d _ => "dict"

/-- Python `int(v)`: numbers pass through, numeric strings parse,
`None`/dicts raise `TypeError`, non-numeric strings raise `ValueError`. -/
def pyInt : Val → Except PyErr Int
  | .n k => .ok k
  | .s x =>
    match x.toInt? with
    | some k => .ok k
    | none => .error .valueError
  | .null => .error .typeError
  | .d _ => .error .typeError

/-- Python `"{:0.1f}".format(v)`: formats a number, raises on `None`
(`TypeError`), strings (`ValueError`) and dicts (`TypeError`).  Numbers are
integral in this model, so the rendering appends `.0`. -/
def pyFormatFloat1 : Val → Except PyErr String
  | .n k => .ok (toString k ++ ".0")
  | .s _ => .error .valueError
  | .null => .error .typeError
  | .d _ => .error .typeError

/-- One step of the source's `str_safe_get` reduction:
`d.get(k) if isinstance(d, dict) else ""`; a missing key yields `None`. -/
def pyGetStep : Val → String → Val
  | .d entries, k => dictGetD entries k .null
  | _, _ => .s ""

/-- Source `str_safe_get(dictionary, *keys)`. -/
def str_safe_get (v : Val) (keys : List String) : Val :=
  keys.foldl pyGetStep v

/-- `d[k]` on an arbitrary value: `KeyError` when missing, `TypeError`
when subscripting a non-dict. -/
def subscript (v : Val) (k : String) : Except PyErr Val :=
  match v with
  | .d entries =>
    match dictGet entries k with
    | some x => .ok x
    | none => .error .keyError
  | _ => .error .typeError

/-- The deferred zero-argument actions this module ever enqueues on
`self._task_queue` (`self._hello`, `self._ensure_idle_upload_url`,
`self._upload_snapshot`). -/
inductive Task where
  | helloTask
  | ensureIdleUploadUrl
  | uploadSnapshot

/-- An entry of `self._upload_location`.  The source overwrites
`response["expires"]` with a `datetime` and stores the whole dict; we model
the stored entry as the computed expiry instant paired with the original
response dict (the module never reads the mutated `"expires"` field again,
it reads `['expires']` only through this stored entry). -/
structure StoredLoc where
  expires : Int
  resp : Dict

/-- Externally visible effects: socket emissions, printer-control
invocations, plugin messages, HTTP requests, and the heartbeat loop's
catch-all warning log. -/
inductive Effect where
  | emit (event : String) (payload : Dict)
  | cancelPrint
  | pausePrint
  | resumePrint
  | commands (v : Val)
  | setTemperature (zone : String) (v : Val)
  | pluginMessage (payload : Dict)
  | httpGet (url : String)
  | httpPost (url : String)
  | logWarn (e : PyErr)
  | logError

def PSTATE_IDLE : String := "0"
def PSTATE_SERIAL : String := "1"
def PSTATE_PREPARING : String := "2"
def PSTATE_PRINTING : String := "3"
def PSTATE_PAUSED : String := "4"
def PSTATE_POSTPROCESSING : String := "5"
def PSTATE_CANCELING : String := "6"
def PSTATE_COMPLETE : String := "7"
def PSTATE_UPDATING : String := "8"
def PSTATE_COLDPAUSED : String := "9"
def PSTATE_CHANGINGFILAMENT : String := "10"
def PSTATE_TCPIP : String := "11"
def PSTATE_ERROR : String := "12"

def EVENT_PRINT_CANCELLED : String := "PrintCancelled"
def EVENT_PRINT_STARTED : String := "PrintStarted"
def EVENT_PRINT_RESUMED : String := "PrintResumed"

/-- `get_mac()`: MAC-derived identifier, external (`uuid.getnode`),
immutable per process. -/
def get_mac : String := "00:11:22:33:44:55"

/-- `get_ip()`: likely local UI address, external
(`octoprint.util.address_for_client`). -/
def get_ip : String := "192.168.0.2"

/-- `base64.b64encode(crypto.sign(self.key, challenge, b'sha256'))`.
The key signer is an out-of-scope collaborator (spec scope: "provide a
signer"); modelled as a total function of the challenge value. -/
def b64sign (challenge : Val) : String := "b64sig:" ++ pyStr challenge

/-- `datetime.isoformat()` of an instant, abstracted to a rendering of the
model's integer clock. -/
def isoformat (t : Int) : String := "iso:" ++ toString t

/-- The plugin object's mutable state, plus the state of its collaborators
that the module only reads (printer state/temperatures/current data,
wall-clock `now`, the configured snapshot URL). -/
structure PState where
  serial : Option String := none
  challenge : Option Val := none
  taskQueue : List Task := []
  uploadLocation : List (Val × StoredLoc) := []
  updateInterval : Nat := 60
  cloudPrint : Bool := false
  jobId : String := "123"
  pstate : String := PSTATE_IDLE
  pstateCounter : Nat := 0
  snapshotUrl : Option String := none
  now : Int := 0
  printerStateId : String := "OPERATIONAL"
  printerPrinting : Bool := false
  temps : Dict := []
  currentData : Dict := []

/-- Lookup in `self._upload_location` by (hashable) key. -/
def locLookup : List (Val × StoredLoc) → Val → Option StoredLoc
  | [], _ => none
  | (k', v) :: rest, k => if hashableKeyBeq k' k then some v else locLookup rest k

/-- `self._upload_location[key] = value`. -/
def locSet : List (Val × StoredLoc) → Val → StoredLoc → List (Val × StoredLoc)
  | [], k, v => [(k, v)]
  | (k', v') :: rest, k, v =>
    if hashableKeyBeq k' k then (k, v) :: rest else (k', v') :: locSet rest k v

/-- `_valid_packet(self, data)`: false when `self._serial` is falsy
(`None` or `""`) or differs from `data.get("serialNumber", "")`;
a non-string `serialNumber` value compares unequal to the serial string. -/
def valid_packet (st : PState) (data : Dict) : Bool :=
  match st.serial with
  | none => false
  | some s => !(s == "") && strEqVal s (dictGetD data "serialNumber" (.s ""))

/-- `_get_job_id(self)`. -/
def get_job_id (st : PState) : String :=
  if st.printerPrinting then st.jobId else "0"

/-- `_get_url(self, url_type, job_id)`: emits a `getUrl` message. -/
def get_url (st : PState) (urlType : String) (jobId : String) :
    PState × List Effect :=
  (st, [Effect.emit "getUrl" [
    ("serialNumber", match st.serial with | some s => Val.s s | none => Val.null),
    ("method", Val.s "post"),
    ("type", Val.s urlType),
    ("jobId", Val.s jobId)]])

/-- `_ensure_upload_url(self, upload_type)`: returns `false` at once if no
snapshot URL is configured; otherwise requests a fresh URL (and returns
`false`) when no descriptor is cached or `now` is strictly past its expiry,
and returns `true` otherwise. -/
def ensure_upload_url (st : PState) (uploadType : String) :
    PState × List Effect × Bool :=
  if !truthyStr st.snapshotUrl then (st, [], false)
  else
    match locLookup st.uploadLocation (.s uploadType) with
    | none =>
      let r := get_url st uploadType (get_job_id st)
      (r.1, r.2, false)
    | some loc =>
      if st.now > loc.expires then
        let r := get_url st uploadType (get_job_id st)
        (r.1, r.2, false)
      else (st, [], true)

/-- `_upload_snapshot(self)`: no-op unless `_ensure_upload_url('idle')`;
otherwise fetch the camera image and POST it to the cached descriptor's
URL with its form fields.  Both requests are external; their failure paths
only log, so the transport outcome is abstracted to the request effects
(a stored descriptor lacking `url`/`fields` makes the POST attempt raise
inside its own `try`, leaving only an error log). -/
def upload_snapshot (st : PState) : PState × List Effect :=
  match ensure_upload_url st "idle" with
  | (st1, effs, false) => (st1, effs)
  | (st1, effs, true) =>
    match locLookup st1.uploadLocation (.s "idle"), st1.snapshotUrl with
    | some loc, some snap =>
      match dictGet loc.resp "url", dictGet loc.resp "fields" with
      | some (.s u), some _ =>
        (st1, effs ++ [Effect.httpGet snap, Effect.httpPost u])
      | _, _ => (st1, effs ++ [Effect.httpGet snap, Effect.logError])
    | _, _ => (st1, effs)

/-- `_ensure_idle_upload_url(self)` (discards the boolean result). -/
def ensure_idle_upload_url (st : PState) : PState × List Effect :=
  let r := ensure_upload_url st "idle"
  (r.1, r.2.1)

/-- `_on_get_url_response(self, response)`.  After the serial, `status`
presence and `status == 'SUCCESS'` gates, the source logs a warning when a
required property (`type`, `expires`, `url`, `maxSize`, `fields`) is
missing but does NOT return: it still computes the expiry from
`int(response.get("expires", 0))`, stores the descriptor under
`response.get('type', 'idle')`, and enqueues a snapshot upload when
`response.get('type', '') == 'idle'`.  A dict-valued `type` would be an
unhashable dict key (`TypeError`). -/
def on_get_url_response (st : PState) (response : Dict) :
    Except PyErr (PState × List Effect) :=
  if !valid_packet st response then .ok (st, [])
  else if !has_all response ["status"] then .ok (st, [])
  else if !strEqVal "SUCCESS" (dictGetD response "status" (.s "")) then .ok (st, [])
  else
    match pyInt (dictGetD response "expires" (.n 0)) with
    | .error e => .error e
    | .ok e =>
      match dictGetD response "type" (.s "idle") with
      | .d _ => .error .typeError
      | key =>
        let st1 : PState := { st with
          uploadLocation := locSet st.uploadLocation key ⟨st.now + e, response⟩ }
        if strEqVal "idle" (dictGetD response "type" (.s "")) then
          .ok ({ st1 with taskQueue := st1.taskQueue ++ [Task.uploadSnapshot] }, [])
        else .ok (st1, [])

/-- `_on_welcome(self, welcome)`: when a challenge is present, store it and
enqueue the hello task (the thread start in `_start_polar_status` is not an
effect of this model). -/
def on_welcome (st : PState) (welcome : Dict) : PState × List Effect :=
  if has_all welcome ["challenge"] then
    ({ st with challenge := dictGet welcome "challenge",
               taskQueue := st.taskQueue ++ [Task.helloTask] }, [])
  else (st, [])

/-- `_hello(self)`: when both `self._serial` and `self._challenge` are
truthy, emit the `hello` message (serial, base64 signature over the
challenge, MAC, local IP, protocol "2") and enqueue
`_ensure_idle_upload_url`; otherwise a logged no-op. -/
def hello (st : PState) : PState × List Effect :=
  if truthyStr st.serial && truthyOptVal st.challenge then
    ({ st with taskQueue := st.taskQueue ++ [Task.ensureIdleUploadUrl] },
     [Effect.emit "hello" [
       ("serialNumber", match st.serial with | some s => Val.s s | none => Val.null),
       ("signature", Val.s (b64sign ((st.challenge).getD Val.null))),
       ("MAC", Val.s get_mac),
       ("localIp", Val.s get_ip),
       ("protocol", Val.s "2")]])
  else (st, [])

/-- `_on_cancel(self, data)`. -/
def on_cancel (st : PState) (data : Dict) : PState × List Effect :=
  if !valid_packet st data then (st, [])
  else (st, [Effect.cancelPrint])

/-- `_on_command(self, data)`. -/
def on_command (st : PState) (data : Dict) : PState × List Effect :=
  if !valid_packet st data then (st, [])
  else (st, [Effect.commands (dictGetD data "command" (.s ""))])

/-- `_on_pause(self, data)`. -/
def on_pause (st : PState) (data : Dict) : PState × List Effect :=
  if !valid_packet st data then (st, [])
  else (st, [Effect.pausePrint])

/-- `_on_print(self, data)`: the body after the serial gate is a TODO stub. -/
def on_print (st : PState) (data : Dict) : PState × List Effect :=
  if !valid_packet st data then (st, [])
  else (st, [])

/-- `_on_resume(self, data)`. -/
def on_resume (st : PState) (data : Dict) : PState × List Effect :=
  if !valid_packet st data then (st, [])
  else (st, [Effect.resumePrint])

/-- `_on_temperature(self, data)`: after the serial gate the source runs
`for key in data: if re.match("(?bed)|(?tool[0-9]+)", key): ...` — but the
module never imports `re`, so the first loop iteration raises `NameError`
before any `set_temperature` call; with an empty dict the loop body never
runs.  (Even with `re` imported, `"(?bed)"` is an invalid group and the
body reads `data['key']`, the literal key, instead of `data[key]`.) -/
def on_temperature (st : PState) (data : Dict) :
    Except PyErr (PState × List Effect) :=
  if !valid_packet st data then .ok (st, [])
  else
    match data with
    | [] => .ok (st, [])
    | _ :: _ => .error .nameError

/-- `_on_update(self, data)`: the body after the serial gate is a TODO stub. -/
def on_update (st : PState) (data : Dict) : PState × List Effect :=
  if !valid_packet st data then (st, [])
  else (st, [])

/-- The `state_mapping` literal of `_polar_status_from_state`. -/
def state_mapping : List (String × String) :=
  [("OPEN_SERIAL", PSTATE_ERROR),
   ("DETECT_SERIAL", PSTATE_ERROR),
   ("DETECT_BAUDRATE", PSTATE_ERROR),
   ("CONNECTING", PSTATE_ERROR),
   ("OPERATIONAL", PSTATE_IDLE),
   ("PRINTING", PSTATE_SERIAL),
   ("PAUSED", PSTATE_PAUSED),
   ("CLOSED", PSTATE_ERROR),
   ("ERROR", PSTATE_ERROR),
   ("CLOSED_WITH_ERROR", PSTATE_ERROR),
   ("TRANSFERING_FILE", PSTATE_SERIAL),
   ("OFFLINE", PSTATE_ERROR),
   ("UNKNOWN", PSTATE_ERROR),
   ("NONE", PSTATE_ERROR)]

/-- Plain association-list lookup for `state_mapping`. -/
def assocFind : List (String × String) → String → Option String
  | [], _ => none
  | (k', v) :: rest, k => if k' == k then some v else assocFind rest k

/-- `_polar_status_from_state(self)`: `state_mapping[state_id]` — a subscript,
so an unmapped printer state id raises `KeyError`. -/
def polar_status_from_state (stateId : String) : Except PyErr String :=
  match assocFind state_mapping stateId with
  | some v => .ok v
  | none => .error .keyError

/-- `temps[zone][which] if zone in temps else 0.0` (a present zone entry
that is not a dict or lacks `which` raises). -/
def temp_field (temps : Dict) (zone which : String) : Except PyErr Val :=
  match dictGet temps zone with
  | some v => subscript v which
  | none => .ok (Val.n 0)

/-- `_current_status(self)`: builds the status payload; the printing branch
reads the printer's current data through `str_safe_get`, formats the
completion percentage as a float, and computes `startTime` from
`int(status["printSeconds"])` — each of which can raise on malformed data. -/
def current_status (st : PState) : Except PyErr Dict := do
  let temps := st.temps
  let pstatus ← polar_status_from_state st.printerStateId
  let tool0 ← temp_field temps "tool0" "actual"
  let tool1 ← temp_field temps "tool1" "actual"
  let bed ← temp_field temps "bed" "actual"
  let targetTool0 ← temp_field temps "tool0" "target"
  let targetTool1 ← temp_field temps "tool1" "target"
  let targetBed ← temp_field temps "bed" "target"
  let status : Dict :=
    [("serialNumber", match st.serial with | some s => Val.s s | none => Val.null),
     ("status", Val.s pstatus),
     ("tool0", tool0), ("tool1", tool1), ("bed", bed),
     ("targetTool0", targetTool0), ("targetTool1", targetTool1),
     ("targetBed", targetBed),
     ("jobId", Val.s (get_job_id st)),
     ("protocol", Val.s "2"),
     ("progress", Val.s ""), ("progressDetail", Val.s ""),
     ("estimatedTime", Val.s "0"), ("filamentUsed", Val.s "0"),
     ("startTime", Val.s "0"), ("printSeconds", Val.s "0"),
     ("bytesRead", Val.s "0"), ("fileSize", Val.s "0"),
     ("file", Val.s ""), ("config", Val.s ""),
     ("sliceDetails", Val.s ""), ("securityCode", Val.s "")]
  if st.printerPrinting then
    let data := Val.d st.currentData
    let status := dictSet status "progress" (str_safe_get data ["state", "text"])
    let completion ← pyFormatFloat1 (str_safe_get data ["progress", "completion"])
    let status := dictSet status "progressDetail"
      (Val.s ("Printing Job: " ++ pyStr (str_safe_get data ["file", "name"])
        ++ " Percent Complete: " ++ completion ++ "%"))
    let status := dictSet status "estimatedTime"
      (str_safe_get data ["job", "estimatedPrintTime"])
    let status := dictSet status "filamentUsed"
      (str_safe_get data ["job", "filament", "length"])
    let printSeconds := str_safe_get data ["progress", "printTime"]
    let status := dictSet status "printSeconds" printSeconds
    let ps ← pyInt printSeconds
    let status := dictSet status "startTime" (Val.s (isoformat (st.now - ps)))
    let status := dictSet status "bytesRead" (str_safe_get data ["progress", "filepos"])
    let status := dictSet status "fileSize" (str_safe_get data ["job", "file", "size"])
    pure status
  else
    pure status

/-- Running one dequeued task (`task()` in the heartbeat loop).  The three
tasks this module enqueues are total in the model. -/
def run_task (st : PState) : Task → PState × List Effect
  | .helloTask => hello st
  | .ensureIdleUploadUrl => ensure_idle_upload_url st
  | .uploadSnapshot => upload_snapshot st

/-- The `for i in range(self._update_interval)` wait loop: each 1-second
slice dequeues at most one task (removed from the queue before execution)
and runs it; `Queue.Empty` is swallowed. -/
def drain : Nat → PState → PState × List Effect
  | 0, st => (st, [])
  | n + 1, st =>
    match st.taskQueue with
    | [] => drain n st
    | t :: rest =>
      let r1 := run_task { st with taskQueue := rest } t
      let r2 := drain n r1.1
      (r2.1, r1.2 ++ r2.2)

/-- One iteration of the `while True:` body of `_polar_status_heartbeat`,
up to but not including the `except` clause: emit a status when a serial is
known (resetting the interval to the slow default when neither a cloud
print nor local printing is active), run the sliced wait/task drain, then
the snapshot cycle.  The third component is the uncaught exception, if any
(the status build is the raising site in this model; the state is returned
as it stood when the exception fired). -/
def heartbeat_body (st : PState) : PState × List Effect × Option PyErr :=
  if truthyStr st.serial then
    match current_status st with
    | .error e => (st, [], some e)
    | .ok status =>
      let st1 := if !st.cloudPrint && !st.printerPrinting then
          { st with updateInterval := 60 }
        else st
      let r1 := drain st1.updateInterval st1
      let r2 := if truthyStr r1.1.serial then upload_snapshot r1.1 else (r1.1, [])
      (r2.1, Effect.emit "status" status :: (r1.2 ++ r2.2), none)
  else
    let r1 := drain st.updateInterval st
    let r2 := if truthyStr r1.1.serial then upload_snapshot r1.1 else (r1.1, [])
    (r2.1, r1.2 ++ r2.2, none)

/-- One full iteration including the loop-level `except Exception` clause:
an exception is converted into a warning log and the iteration completes. -/
def heartbeat_iteration (st : PState) : PState × List Effect :=
  match heartbeat_body st with
  | (st', effs, some e) => (st', effs ++ [Effect.logWarn e])
  | (st', effs, none) => (st', effs)

/-- `n` successive iterations of the heartbeat loop. -/
def run_loop : Nat → PState → PState × List Effect
  | 0, st => (st, [])
  | n + 1, st =>
    let r1 := heartbeat_iteration st
    let r2 := run_loop n r1.1
    (r2.1, r1.2 ++ r2.2)

/-- `on_event(self, event, payload)`.  On `PRINT_CANCELLED` with an active
cloud print the source assigns `self.PSTATE_CANCELLING` — an attribute that
does not exist (the declared constant is `PSTATE_CANCELING`), so that path
raises `AttributeError`.  `PRINT_STARTED`/`PRINT_RESUMED` set the update
interval to 10. -/
def on_event (st : PState) (event : String) : Except PyErr PState :=
  match
    (if event == EVENT_PRINT_CANCELLED then
      if st.cloudPrint then Except.error PyErr.attributeError
      else Except.ok st
    else Except.ok st) with
  | .error e => .error e
  | .ok st1 =>
    if event == EVENT_PRINT_STARTED || event == EVENT_PRINT_RESUMED then
      .ok { st1 with updateInterval := 10 }
    else .ok st1

section Claims

/-- A string equals a message value exactly when the value is that string. -/
theorem strEqVal_eq_iff (s : String) (v : Val) :
    strEqVal s v = true ↔ v = Val.s s := by
  cases v <;> simp [strEqVal]
  exact eq_comm

/-- C1: For every inbound message `m`, `_valid_packet` returns true iff a
local serial number is set (a truthy string) and it equals
`m.serialNumber` exactly (string equality: case-sensitive, no trimming);
and every inbound handler (cancel, command, pause, print, resume,
temperature, update) performs this check first and returns with no state
change and no effect when it is false. -/
theorem valid_packet_iff_and_handlers_gate (st : PState) (data : Dict) :
    (valid_packet st data = true ↔
      ∃ s, st.serial = some s ∧ s ≠ "" ∧
        dictGetD data "serialNumber" (Val.s "") = Val.s s)
    ∧ (valid_packet st data = false →
      on_cancel st data = (st, []) ∧ on_command st data = (st, []) ∧
      on_pause st data = (st, []) ∧ on_print st data = (st, []) ∧
      on_resume st data = (st, []) ∧
      on_temperature st data = .ok (st, []) ∧
      on_update st data = (st, [])) := by
  constructor
  · unfold valid_packet
    cases h : st.serial with
    | none => simp
    | some s => simp [strEqVal_eq_iff]
  · intro h
    simp [on_cancel, on_command, on_pause, on_print, on_resume,
      on_temperature, on_update, h]

/-- Witness for C1 at a concrete input: with no serial set, the packet is
invalid and the cancel handler is a no-op. -/
theorem valid_packet_gate_witness :
    valid_packet {} [("serialNumber", Val.s "s1")] = false
    ∧ on_cancel {} [("serialNumber", Val.s "s1")] = ({}, []) :=
  ⟨rfl, ((valid_packet_iff_and_handlers_gate {} [("serialNumber", Val.s "s1")]).2 rfl).1⟩

/-- C2: the hello task emits a hello message (serial number, signature over
the stored challenge, MAC, local address, protocol version) and enqueues
exactly one follow-up task to ensure the idle upload URL, exactly when both
a serial number and a challenge are present (truthy); otherwise it is a
silent no-op with zero emissions and zero enqueued follow-ups. -/
theorem hello_emits_iff_ready (st : PState) :
    (∀ s c, st.serial = some s → s ≠ "" → st.challenge = some c →
      truthyVal c = true →
      hello st = ({ st with taskQueue := st.taskQueue ++ [Task.ensureIdleUploadUrl] },
        [Effect.emit "hello" [
          ("serialNumber", Val.s s),
          ("signature", Val.s (b64sign c)),
          ("MAC", Val.s get_mac),
          ("localIp", Val.s get_ip),
          ("protocol", Val.s "2")]]))
    ∧ ((truthyStr st.serial = false ∨ truthyOptVal st.challenge = false) →
      hello st = (st, [])) := by
  constructor
  · intro s c hs hns hc htc
    simp [hello, hs, hc, truthyStr, truthyOptVal, htc, hns]
  · intro h
    rcases h with h | h <;> simp [hello, h]

/-- Concrete ready state for the hello-emission witness. -/
def stHello : PState := { serial := some "s1", challenge := some (Val.s "abc") }

/-- Witness for C2: at a concrete state with serial "s1" and challenge
"abc", the hello task emits once and enqueues the idle-URL follow-up. -/
theorem hello_emits_witness :
    hello stHello = ({ stHello with taskQueue := [Task.ensureIdleUploadUrl] },
      [Effect.emit "hello" [
        ("serialNumber", Val.s "s1"),
        ("signature", Val.s (b64sign (Val.s "abc"))),
        ("MAC", Val.s get_mac),
        ("localIp", Val.s get_ip),
        ("protocol", Val.s "2")]]) :=
  (hello_emits_iff_ready stHello).1 "s1" (Val.s "abc") rfl (by decide) rfl (by decide)

/-- Concrete state for the challenge-retention counterexample: serial and
challenge both present. -/
def st9 : PState := { serial := some "s1", challenge := some (Val.s "abc") }

/-- C9 counterexample: the hello task emits the hello message (signing the
stored challenge), yet the challenge is still stored afterwards — it is not
cleared on consumption. -/
theorem hello_does_not_clear_challenge_cex :
    (hello st9).2 = [Effect.emit "hello" [
      ("serialNumber", Val.s "s1"),
      ("signature", Val.s (b64sign (Val.s "abc"))),
      ("MAC", Val.s get_mac),
      ("localIp", Val.s get_ip),
      ("protocol", Val.s "2")]]
    ∧ (hello st9).1.challenge = some (Val.s "abc") := ⟨rfl, rfl⟩

/-- C9 amended: the hello task never modifies the stored challenge — after
it runs (including after a successful emission) the challenge is unchanged,
hence still present; nothing in the handshake clears it. -/
theorem hello_preserves_challenge (st : PState) :
    (hello st).1.challenge = st.challenge := by
  unfold hello
  split <;> rfl

/-- State A for the C3 counterexample: a fresh descriptor is cached
(now 50 < expiry 100) but no snapshot URL is configured. -/
def exStA : PState :=
  { serial := some "s1",
    uploadLocation := [(Val.s "idle", ⟨100, []⟩)],
    now := 50 }

/-- State B for the C3 counterexample: snapshot URL configured and the
clock exactly at the descriptor's expiry. -/
def exStB : PState :=
  { serial := some "s1",
    snapshotUrl := some "http://cam",
    uploadLocation := [(Val.s "idle", ⟨100, []⟩)],
    now := 100 }

/-- C3 counterexample: (A) with no snapshot URL configured, a cached
descriptor that is strictly fresh (now < expiry) still yields `false`,
and the failing call emits no getUrl message at all; (B) with the clock
exactly at the expiry — so NOT strictly before it — the call yields `true`. -/
theorem ensure_upload_url_claim_false :
    (locLookup exStA.uploadLocation (Val.s "idle") = some ⟨100, []⟩
      ∧ exStA.now < 100
      ∧ (ensure_upload_url exStA "idle").2.2 = false
      ∧ (ensure_upload_url exStA "idle").2.1 = [])
    ∧ (locLookup exStB.uploadLocation (Val.s "idle") = some ⟨100, []⟩
      ∧ ¬ exStB.now < 100
      ∧ (ensure_upload_url exStB "idle").2.2 = true) :=
  ⟨⟨rfl, by decide, rfl, rfl⟩, rfl, by decide, rfl⟩

/-- C3 amended: provided a snapshot URL is configured (the source returns
`false` at once, with no emission, when it is not): `_ensure_upload_url(p)`
returns true iff a descriptor for `p` exists in the cache and the current
time is at most its expiry (the source's test is `now > expires`, so the
boundary instant still counts as fresh); every failing call emits exactly
one getUrl message keyed by the purpose and the current job id and returns
false; a successful call emits nothing; the state is never changed. -/
theorem ensure_upload_url_amended (st : PState) (p : String)
    (hsnap : truthyStr st.snapshotUrl = true) :
    ((ensure_upload_url st p).2.2 = true ↔
      ∃ loc, locLookup st.uploadLocation (Val.s p) = some loc
        ∧ st.now ≤ loc.expires)
    ∧ ((ensure_upload_url st p).2.2 = false →
      (ensure_upload_url st p).2.1 = [Effect.emit "getUrl" [
        ("serialNumber", match st.serial with | some s => Val.s s | none => Val.null),
        ("method", Val.s "post"),
        ("type", Val.s p),
        ("jobId", Val.s (get_job_id st))]])
    ∧ ((ensure_upload_url st p).2.2 = true → (ensure_upload_url st p).2.1 = [])
    ∧ (ensure_upload_url st p).1 = st := by
  unfold ensure_upload_url get_url
  rw [hsnap]
  simp only [Bool.not_true, Bool.false_eq_true, if_false]
  split
  next heq =>
    exact ⟨by simp [heq], fun _ => rfl, by simp, rfl⟩
  next loc heq =>
    by_cases hgt : st.now > loc.expires
    · rw [if_pos hgt]
      refine ⟨?_, fun _ => rfl, by simp, rfl⟩
      simp only [Bool.false_eq_true, false_iff, heq, Option.some.injEq,
        not_exists, not_and]
      rintro loc' rfl
      omega
    · rw [if_neg hgt]
      refine ⟨?_, by simp, fun _ => rfl, rfl⟩
      simp only [true_iff]
      exact ⟨loc, heq, by omega⟩

/-- Witness for C3 amended: at state B (snapshot URL present, clock at the
expiry boundary) the ensure call reports the descriptor fresh. -/
theorem ensure_upload_url_amended_witness :
    truthyStr exStB.snapshotUrl = true
    ∧ (ensure_upload_url exStB "idle").2.2 = true :=
  ⟨rfl, (ensure_upload_url_amended exStB "idle" rfl).1.mpr ⟨⟨100, []⟩, rfl, by decide⟩⟩

/-- Concrete state for the C4 bug exhibit. -/
def st4 : PState := { serial := some "s1", now := 1000 }

/-- A SUCCESS response missing the required `url`, `maxSize` and `fields`
properties. -/
def resp4 : Dict :=
  [("serialNumber", Val.s "s1"), ("status", Val.s "SUCCESS"),
   ("type", Val.s "printing"), ("expires", Val.n 50)]

/-- C4 (bug exhibit): a serial-valid SUCCESS `getUrlResponse` missing
required fields (`url`, `maxSize`, `fields`) is NOT ignored — the source's
warning branch lacks a `return`, so it falls through and stores the
descriptor anyway (here under "printing" with expiry `now + 50`), changing
the upload-location cache. -/
theorem get_url_response_missing_fields_still_stores :
    valid_packet st4 resp4 = true
    ∧ has_all resp4 ["type", "expires", "url", "maxSize", "fields"] = false
    ∧ on_get_url_response st4 resp4 =
      .ok ({ st4 with uploadLocation := [(Val.s "printing", ⟨1050, resp4⟩)] }, []) :=
  ⟨rfl, rfl, rfl⟩

/-- C5: a serial-valid `getUrlResponse` with status SUCCESS, type "idle"
and an `expires` value stores a descriptor with expiry `now + expires`
under "idle" and enqueues exactly one snapshot-upload task, whatever the
cache previously contained. -/
theorem idle_url_response_stores_and_enqueues (st : PState) (resp : Dict)
    (e : Int)
    (hv : valid_packet st resp = true)
    (hs : dictGet resp "status" = some (Val.s "SUCCESS"))
    (ht : dictGet resp "type" = some (Val.s "idle"))
    (he : dictGet resp "expires" = some (Val.n e)) :
    on_get_url_response st resp =
      .ok ({ st with
        uploadLocation := locSet st.uploadLocation (Val.s "idle") ⟨st.now + e, resp⟩,
        taskQueue := st.taskQueue ++ [Task.uploadSnapshot] }, []) := by
  unfold on_get_url_response
  rw [hv]
  simp [has_all, dictGetD, hs, ht, he, strEqVal, pyInt]

/-- Concrete response and state for the C5 witness. -/
def resp5 : Dict :=
  [("serialNumber", Val.s "s1"), ("status", Val.s "SUCCESS"),
   ("type", Val.s "idle"), ("expires", Val.n 60), ("url", Val.s "https://x"),
   ("maxSize", Val.n 104857600), ("fields", Val.d [])]

/-- Concrete state for the C5 witness. -/
def st5 : PState := { serial := some "s1", now := 2000 }

/-- Witness for C5: the concrete idle response is stored with expiry
2000 + 60 and one snapshot-upload task is enqueued. -/
theorem idle_url_response_witness :
    on_get_url_response st5 resp5 =
      .ok ({ st5 with
        uploadLocation := [(Val.s "idle", ⟨2060, resp5⟩)],
        taskQueue := [Task.uploadSnapshot] }, []) :=
  idle_url_response_stores_and_enqueues st5 resp5 60 rfl rfl rfl rfl

/-- C10: a serial-valid SUCCESS `getUrlResponse` with NO `type` field
stores the descriptor under the purpose key "idle" (the store key defaults
to "idle"), yet enqueues no snapshot-upload task (the enqueue check
defaults the missing type to "", which is not "idle"): the task queue is
unchanged. -/
theorem missing_type_stores_idle_no_task (st : PState) (resp : Dict)
    (e : Int)
    (hv : valid_packet st resp = true)
    (hs : dictGet resp "status" = some (Val.s "SUCCESS"))
    (ht : dictGet resp "type" = none)
    (he : dictGet resp "expires" = some (Val.n e)) :
    on_get_url_response st resp =
      .ok ({ st with
        uploadLocation := locSet st.uploadLocation (Val.s "idle") ⟨st.now + e, resp⟩ }, []) := by
  unfold on_get_url_response
  rw [hv]
  simp [has_all, dictGetD, hs, ht, he, strEqVal, pyInt]

/-- Concrete response for the C10 witness: SUCCESS, serial-valid, no type. -/
def resp10 : Dict :=
  [("serialNumber", Val.s "s1"), ("status", Val.s "SUCCESS"),
   ("expires", Val.n 30)]

/-- Concrete state for the C10 witness. -/
def st10 : PState := { serial := some "s1", now := 500 }

/-- Witness for C10: the type-less response is stored under "idle" and the
task queue stays empty. -/
theorem missing_type_witness :
    on_get_url_response st10 resp10 =
      .ok ({ st10 with uploadLocation := [(Val.s "idle", ⟨530, resp10⟩)] }, []) :=
  missing_type_stores_idle_no_task st10 resp10 30 rfl rfl rfl rfl

/-- Concrete state for the C8 bug exhibit. -/
def st8 : PState := { serial := some "s1" }

/-- A temperature message addressed to this device asking for bed = 60. -/
def tempMsgMine : Dict := [("serialNumber", Val.s "s1"), ("bed", Val.n 60)]

/-- The same temperature message addressed to another device. -/
def tempMsgOther : Dict := [("serialNumber", Val.s "s2"), ("bed", Val.n 60)]

/-- C8 (bug exhibit): on the serial-matching temperature message carrying
bed = 60 the handler raises `NameError` (the source calls `re.match`
without ever importing `re`) and performs zero set-temperature invocations,
instead of the one invocation for "bed" with 60 the claim requires; on the
serial-mismatched message it performs zero invocations, as claimed. -/
theorem on_temperature_raises_at_failing_input :
    valid_packet st8 tempMsgMine = true
    ∧ on_temperature st8 tempMsgMine = .error PyErr.nameError
    ∧ on_temperature st8 tempMsgOther = .ok (st8, []) :=
  ⟨rfl, rfl, rfl⟩

/-- `_ensure_upload_url` never changes the state (it only emits). -/
theorem ensure_upload_url_state (st : PState) (p : String) :
    (ensure_upload_url st p).1 = st := by
  unfold ensure_upload_url get_url
  split
  · rfl
  · split
    · rfl
    · split <;> rfl

/-- `_upload_snapshot` never changes the state (it only emits/requests). -/
theorem upload_snapshot_state (st : PState) : (upload_snapshot st).1 = st := by
  have h := ensure_upload_url_state st "idle"
  unfold upload_snapshot
  split
  next st1 effs heq =>
    rw [heq] at h
    exact h
  next st1 effs heq =>
    rw [heq] at h
    split
    · split <;> exact h
    · exact h

/-- The hello task never changes the update interval. -/
theorem hello_interval (st : PState) :
    (hello st).1.updateInterval = st.updateInterval := by
  unfold hello
  split <;> rfl

/-- No queued task changes the update interval. -/
theorem run_task_interval (st : PState) (t : Task) :
    (run_task st t).1.updateInterval = st.updateInterval := by
  cases t with
  | helloTask => exact hello_interval st
  | ensureIdleUploadUrl =>
    show (ensure_idle_upload_url st).1.updateInterval = _
    unfold ensure_idle_upload_url
    rw [ensure_upload_url_state]
  | uploadSnapshot =>
    show (upload_snapshot st).1.updateInterval = _
    rw [upload_snapshot_state]

/-- The sliced wait/task drain never changes the update interval. -/
theorem drain_interval (n : Nat) :
    ∀ st : PState, (drain n st).1.updateInterval = st.updateInterval := by
  induction n with
  | zero => intro st; rfl
  | succ n ih =>
    intro st
    unfold drain
    cases h : st.taskQueue with
    | nil => exact ih st
    | cons t rest => simp only [run_task_interval, ih]

/-- The heartbeat iteration's resulting state is the body's resulting
state, whether or not an exception was caught. -/
theorem heartbeat_iteration_fst (st : PState) :
    (heartbeat_iteration st).1 = (heartbeat_body st).1 := by
  unfold heartbeat_iteration
  rcases h : heartbeat_body st with ⟨st', effs, _ | e⟩ <;> rfl

/-- C6: any exception raised within one iteration of the heartbeat loop
body is caught at the loop level and turned into a warning log, the
iteration completes with the state as it stood, and the loop proceeds:
`n` further iterations run from that state.  (The loop never terminates
due to a failure.) -/
theorem heartbeat_iteration_catches (st st' : PState) (effs : List Effect)
    (e : PyErr) (h : heartbeat_body st = (st', effs, some e)) :
    heartbeat_iteration st = (st', effs ++ [Effect.logWarn e])
    ∧ ∀ n, run_loop (n + 1) st =
      ((run_loop n st').1, (effs ++ [Effect.logWarn e]) ++ (run_loop n st').2) := by
  have hi : heartbeat_iteration st = (st', effs ++ [Effect.logWarn e]) := by
    unfold heartbeat_iteration
    rw [h]
  refine ⟨hi, fun n => ?_⟩
  have hrn : run_loop (n + 1) st =
      ((run_loop n (heartbeat_iteration st).1).1,
       (heartbeat_iteration st).2 ++ (run_loop n (heartbeat_iteration st).1).2) := rfl
  rw [hrn, hi]

/-- Concrete state for the C6 witness: an unmapped printer state id makes
the status build raise `KeyError` inside the loop body. -/
def stHW : PState := { serial := some "s1", printerStateId := "BOGUS" }

/-- Witness for C6: at the concrete state the body raises, the iteration
catches it, logs a warning and completes with the state unchanged. -/
theorem heartbeat_catches_witness :
    heartbeat_iteration stHW = (stHW, [Effect.logWarn PyErr.keyError]) := by
  have h := (heartbeat_iteration_catches stHW stHW [] PyErr.keyError rfl).1
  simpa using h

/-- Concrete state for the C7 counterexample: no serial set, interval 10,
nothing printing. -/
def stN : PState := { updateInterval := 10 }

/-- C7 counterexample: with no serial number set and neither a cloud print
nor local printing active, the next heartbeat tick does NOT reset the
interval to 60 — the reset sits inside the serial-gated status block, so
the interval stays 10. -/
theorem heartbeat_no_serial_keeps_interval :
    stN.serial = none ∧ stN.cloudPrint = false ∧ stN.printerPrinting = false
    ∧ stN.updateInterval = 10
    ∧ (heartbeat_iteration stN).1.updateInterval = 10 :=
  ⟨rfl, rfl, rfl, rfl, rfl⟩

/-- C7 amended: a print-started or print-resumed event sets the update
interval to 10 seconds; and on any heartbeat tick at which a serial number
is set (truthy), the status build succeeds, and neither a cloud print nor
local printing is active, the interval is reset to 60 seconds (with no
serial set the tick leaves the interval untouched, see the
counterexample). -/
theorem heartbeat_interval_amended :
    (∀ (st : PState) (e : String),
      e = EVENT_PRINT_STARTED ∨ e = EVENT_PRINT_RESUMED →
      on_event st e = .ok { st with updateInterval := 10 })
    ∧ (∀ (st : PState) (d : Dict), truthyStr st.serial = true →
      st.cloudPrint = false → st.printerPrinting = false →
      current_status st = .ok d →
      (heartbeat_iteration st).1.updateInterval = 60) := by
  constructor
  · rintro st e (rfl | rfl) <;> rfl
  · intro st d hs hc hp hd
    rw [heartbeat_iteration_fst]
    unfold heartbeat_body
    rw [hs, hd, hc, hp]
    simp only [if_true, Bool.not_false, Bool.and_self]
    split
    · rw [upload_snapshot_state, drain_interval]
    · rw [drain_interval]

/-- Concrete state for the C7 witness: serial set, fast interval, idle
printer. -/
def stTick : PState := { serial := some "s1", updateInterval := 10 }

/-- Witness for C7: a print-started event narrows the interval to 10, and
the next tick at the idle concrete state resets it to 60. -/
theorem heartbeat_interval_witness :
    on_event stTick EVENT_PRINT_STARTED = .ok { stTick with updateInterval := 10 }
    ∧ (heartbeat_iteration stTick).1.updateInterval = 60 :=
  ⟨heartbeat_interval_amended.1 stTick EVENT_PRINT_STARTED (Or.inl rfl),
   heartbeat_interval_amended.2 stTick _ rfl rfl rfl rfl⟩

end Claims

end PolarCloud
